import Mathlib

/-!
Verification of the filesystem path-handle subsystem ("Road" hierarchy) of
the ts-instrumentality repository, as a shallow embedding in Lean 4.

The primary source is the road module (src/unnamed/part_002): the `roadType`
classifier, the abstract `Road` base class, the `File`, `Folder`,
`SymbolicLink` and `UnusuableRoad` concrete handle classes, and the
`TempFile`/`TempFolder` scoped temporary resources.  Two sibling variants of
the same module are embedded where a claim refers to them: the node.ts
variant (src/src/node.ts, namespace `NodeVariant` below) and the older
variant (src/unnamed/part_003, namespace `P3` below).

Modelling conventions:
 * Resolved absolute POSIX paths are lists of segments; the root "/" is `[]`.
   `ph.dirname` is `List.dropLast` (dirname of the root is the root),
   `ph.basename` is the last segment, and `ph.join dir name` appends the
   (possibly separator-containing) `name` split on "/" — faithful to
   node:path for the already-normalised inputs the claims use.
 * The on-disk state is an association list from paths to nodes.  A node
   stores its raw lstat `mode` integer (type bits plus permission bits),
   its byte content (meaningful for regular files) and its link target
   (meaningful for symbolic links).  Lookup takes the first match.
 * `fs.accessSync` / `fp.access` / `fs.existsSync` follow symbolic links
   (modelled by `followLinks` with the kernel's link-chain bound), while
   `fs.lstatSync` / `fp.lstat` do not — exactly as in Node.
 * Thrown exceptions are modelled with `Except RoadErr`; the distinct error
   classes of the source (NotFound / KindMismatch / NotMutable /
   NotSupported / UnknownKind and raw OS errors) are the constructors of
   `RoadErr`.  The async and sync forms of each operation have separate
   definitions mirroring the separate source methods.
-/

namespace TsInstr

/-- A resolved absolute path: its segments below the root. -/
abbrev Path := List String

/-- Model of `ph.dirname` on a resolved absolute path: drop the last segment.
`dirname "/" = "/"`. -/
def dirname (p : Path) : Path := p.dropLast

/-- Model of `ph.basename` on a resolved absolute path (`basename "/" = ""`). -/
def basename (p : Path) : String := p.getLast?.getD ""

/-- Split a list of characters on the path separator, dropping empty
segments; `acc` holds the reversed characters of the segment being read. -/
def splitSegs : List Char → List Char → List String
  | [], acc => if acc.isEmpty then [] else [⟨acc.reverse⟩]
  | c :: rest, acc =>
    if c = '/' then
      if acc.isEmpty then splitSegs rest [] else ⟨acc.reverse⟩ :: splitSegs rest []
    else splitSegs rest (c :: acc)

/-- Split a (possibly nested) relative name on the path separator,
dropping empty segments — how `ph.join` treats each argument. -/
def splitName (s : String) : List String := splitSegs s.data []

/-- Model of `ph.join dir name` for an absolute `dir` and relative `name`. -/
def joinPath (p : Path) (s : String) : Path := p ++ splitName s

/-- Model of `fs.constants.S_IFMT` (0o170000): mask of the file-type mode bits. -/
def S_IFMT : Nat := 61440

/-- Model of `fs.constants.S_IFREG` (0o100000). -/
def S_IFREG : Nat := 32768

/-- Model of `fs.constants.S_IFDIR` (0o040000). -/
def S_IFDIR : Nat := 16384

/-- Model of `fs.constants.S_IFBLK` (0o060000). -/
def S_IFBLK : Nat := 24576

/-- Model of `fs.constants.S_IFCHR` (0o020000). -/
def S_IFCHR : Nat := 8192

/-- Model of `fs.constants.S_IFLNK` (0o120000). -/
def S_IFLNK : Nat := 40960

/-- Model of `fs.constants.S_IFIFO` (0o010000). -/
def S_IFIFO : Nat := 4096

/-- Model of `fs.constants.S_IFSOCK` (0o140000). -/
def S_IFSOCK : Nat := 49152

/-- The seven node kinds of the classifier, i.e. the seven concrete `Road`
subclasses (`road_t` in the source). -/
inductive RoadT
  | file
  | folder
  | blockDevice
  | charDevice
  | symlink
  | fifo
  | socket
  deriving DecidableEq, Repr

/-- The error taxonomy of the library: each constructor models one family of
exception thrown by the source (plus `fsError` for raw OS errors). -/
inductive RoadErr
  | notFound
  | typeMismatch
  | notMutable
  | notSupported (kind : RoadT) (atPath : Path)
  | unknownKind
  | invalidPath
  | fsError
  deriving DecidableEq, Repr

/-- The mode-bit arm of `roadType` (part_002 lines 106-118): mask the raw
lstat mode with `S_IFMT` and map to one of the seven kinds; any other value
throws the UnknownKindError (`Unknown mode type ...`). -/
def roadTypeOfMode (mode : Nat) : Except RoadErr RoadT :=
  if mode &&& S_IFMT = S_IFREG then .ok .file
  else if mode &&& S_IFMT = S_IFDIR then .ok .folder
  else if mode &&& S_IFMT = S_IFBLK then .ok .blockDevice
  else if mode &&& S_IFMT = S_IFCHR then .ok .charDevice
  else if mode &&& S_IFMT = S_IFLNK then .ok .symlink
  else if mode &&& S_IFMT = S_IFIFO then .ok .fifo
  else if mode &&& S_IFMT = S_IFSOCK then .ok .socket
  else .error .unknownKind

/-- An on-disk filesystem node: its raw lstat `mode`, its byte content
(meaningful for regular files) and its stored link target (meaningful for
symbolic links; kept already resolved to an absolute path). -/
structure FsNode where
  mode : Nat
  content : List Nat := []
  target : Path := []
  deriving DecidableEq, Repr

/-- The on-disk state: an association list from resolved paths to nodes. -/
abbrev Fs := List (Path × FsNode)

/-- Look up the node at a path (first match). -/
def fsGet : Fs → Path → Option FsNode
  | [], _ => none
  | (q, n) :: rest, p => if q = p then some n else fsGet rest p

/-- Whether a node's lstat mode classifies as a symbolic link. -/
def isLinkNode (n : FsNode) : Bool :=
  match roadTypeOfMode n.mode with
  | .ok .symlink => true
  | _ => false

/-- The kernel bound on symlink-chain length (Linux ELOOP bound), used by
every path probe that follows links. -/
def linkFuel : Nat := 40

/-- Resolve a path, following symbolic links up to the chain bound, to the
non-link node it denotes (`none` if absent, dangling, or too many links). -/
def followLinks : Nat → Fs → Path → Option (Path × FsNode)
  | 0, _, _ => none
  | fuel + 1, fs, p =>
    match fsGet fs p with
    | none => none
    | some n => if isLinkNode n then followLinks fuel fs n.target else some (p, n)

/-- Model of `fs.accessSync(p, F_OK)` / `fp.access(p, F_OK)` succeeding: the path
resolves (following symlinks) to an existing node. -/
def accessOk (fs : Fs) (p : Path) : Bool := (followLinks linkFuel fs p).isSome

/-- Model of `fs.existsSync(p)`: stat-based, follows symlinks like `access`. -/
def existsSync (fs : Fs) (p : Path) : Bool := (followLinks linkFuel fs p).isSome

/-- Model of `fs.lstatSync(p)` / `fp.lstat(p)`: the node at `p` itself, not following
links; throws NotFound (ENOENT) if absent. -/
def lstat (fs : Fs) (p : Path) : Except RoadErr FsNode :=
  match fsGet fs p with
  | none => .error .notFound
  | some n => .ok n

/-- The path arm of `roadType` (part_002 lines 106-118): lstat the path and
classify its mode bits. -/
def roadType (fs : Fs) (p : Path) : Except RoadErr RoadT :=
  match lstat fs p with
  | .error e => .error e
  | .ok n => roadTypeOfMode n.mode

/-- Remove the entry at exactly `p`. -/
def fsErase (fs : Fs) (p : Path) : Fs := fs.filter (fun e => e.1 ≠ p)

/-- Insert (or overwrite) the entry at `p`. -/
def fsInsert (fs : Fs) (p : Path) (n : FsNode) : Fs := (p, n) :: fsErase fs p

/-- Model of `fs.unlinkSync` / `fp.unlink`: remove the entry (a link is removed
itself, never followed); ENOENT if absent, EISDIR/EPERM on a directory. -/
def unlink (fs : Fs) (p : Path) : Except RoadErr Fs :=
  match fsGet fs p with
  | none => .error .notFound
  | some n =>
    match roadTypeOfMode n.mode with
    | .ok .folder => .error .fsError
    | _ => .ok (fsErase fs p)

/-- Whether `p` is `q` or an ancestor of `q` (segment-wise prefix). -/
def underPath (p q : Path) : Bool := p.isPrefixOf q

/-- Rebase a path under `src` to the corresponding path under `dst`. -/
def rebase (src dst q : Path) : Path := dst ++ q.drop src.length

/-- Model of `fs.renameSync` / `fp.rename`: move the node (with its whole subtree)
from `src` to `dst`; ENOENT if `src` is absent. -/
def renameFs (fs : Fs) (src dst : Path) : Except RoadErr Fs :=
  match fsGet fs src with
  | none => .error .notFound
  | some _ =>
    .ok ((fs.filter (fun e => underPath src e.1)).map (fun e => (rebase src dst e.1, e.2))
      ++ fs.filter (fun e => ¬ underPath src e.1))

/-- Model of `fs.copyFileSync` / `fp.copyFile`: follows links on the source, requires
a regular file, overwrites the destination entry. -/
def copyFile (fs : Fs) (src dst : Path) : Except RoadErr Fs :=
  match followLinks linkFuel fs src with
  | none => .error .notFound
  | some (_, n) =>
    match roadTypeOfMode n.mode with
    | .ok .file => .ok (fsInsert fs dst n)
    | _ => .error .fsError

/-- Model of `fs.cpSync(src, dst, recursive)` / `fp.cp`: duplicate the subtree at
`src` under `dst`, merging into (and shadowing collisions in) whatever is
already there; ENOENT if `src` is absent. -/
def cpTree (fs : Fs) (src dst : Path) : Except RoadErr Fs :=
  match fsGet fs src with
  | none => .error .notFound
  | some _ =>
    .ok ((fs.filter (fun e => underPath src e.1)).map (fun e => (rebase src dst e.1, e.2)) ++ fs)

/-- Model of `fs.rmdirSync(p, recursive)` / `fp.rmdir`: remove the directory and its
entire subtree; ENOENT if absent, ENOTDIR on a non-directory. -/
def rmdirRec (fs : Fs) (p : Path) : Except RoadErr Fs :=
  match fsGet fs p with
  | none => .error .notFound
  | some n =>
    match roadTypeOfMode n.mode with
    | .ok .folder => .ok (fs.filter (fun e => ¬ underPath p e.1))
    | _ => .error .fsError

/-- Model of `fs.readFileSync` / `fp.readFile`: follows links, requires a regular
file, returns its bytes. -/
def readFile (fs : Fs) (p : Path) : Except RoadErr (List Nat) :=
  match followLinks linkFuel fs p with
  | none => .error .notFound
  | some (_, n) =>
    match roadTypeOfMode n.mode with
    | .ok .file => .ok n.content
    | _ => .error .fsError

/-- Model of `fs.symlinkSync(target, p)` / `fp.symlink`: create a new link at `p`
(EEXIST if something is already there) storing `target`. -/
def symlinkNew (fs : Fs) (target p : Path) : Except RoadErr Fs :=
  if (fsGet fs p).isSome then .error .fsError
  else .ok (fsInsert fs p { mode := S_IFLNK + 511, target := target })

/-- The four kinds whose concrete class is an `UnusuableRoad` subclass
(block device, character device, FIFO, socket). -/
def unusableKind : RoadT → Bool
  | .blockDevice => true
  | .charDevice => true
  | .fifo => true
  | .socket => true
  | _ => false

/-- A path handle (the `Road` base-class state): the resolved path it points
to (`pointsTo`, read through the `isAt` getter), the concrete subclass it
was constructed as, its library-level `mutable` flag, and whether the
instance was frozen at construction (`Object.freeze` in `UnusuableRoad`). -/
structure Road where
  pointsTo : Path
  ctorKind : RoadT
  mutable : Bool
  frozen : Bool := false
  deriving DecidableEq, Repr

/-- The `isAt` getter. -/
def Road.isAt (r : Road) : Path := r.pointsTo

/-- The `Road` constructor run for concrete subclass `kind` (part_002 lines
186-191): `accessSync(F_OK)` (throws NotFound), resolve the path, then check
`this instanceof roadType(this.isAt)` (throws the type mismatch).  The
`UnusuableRoad` subclasses additionally set `mutable = false` and freeze the
instance (part_002 lines 1358-1363). -/
def Road.construct (fs : Fs) (kind : RoadT) (lookFor : Path) : Except RoadErr Road :=
  if accessOk fs lookFor then
    match roadType fs lookFor with
    | .error e => .error e
    | .ok k =>
      if k = kind then
        .ok ⟨lookFor, kind, !unusableKind kind, unusableKind kind⟩
      else .error .typeMismatch
  else .error .notFound

/-- Model of `Road.factory_sync` (part_002 lines 208-212): `accessSync`, classify,
construct the matching concrete subclass. -/
def Road.factory_sync (fs : Fs) (lookFor : Path) : Except RoadErr Road :=
  if accessOk fs lookFor then
    match roadType fs lookFor with
    | .error e => .error e
    | .ok k => Road.construct fs k lookFor
  else .error .notFound

/-- Model of `Road.factory` (async form, part_002 lines 203-207): same semantics with
the awaitable calls. -/
def Road.factory (fs : Fs) (lookFor : Path) : Except RoadErr Road :=
  if accessOk fs lookFor then
    match roadType fs lookFor with
    | .error e => .error e
    | .ok k => Road.construct fs k lookFor
  else .error .notFound

/-- Model of `assert_mutable` (part_002 lines 220-223): throw the NotMutableError
when the instance's `mutable` flag is false. -/
def Road.assert_mutable (r : Road) : Except RoadErr Unit :=
  if r.mutable then .ok () else .error .notMutable

/-- Assignment to the `mutable` field.  `UnusuableRoad` instances are frozen
at construction (`Object.freeze(this)`), so the assignment has no effect on
them. -/
def Road.setMutable (r : Road) (b : Bool) : Road :=
  if r.frozen then r else { r with mutable := b }

/-- Model of `exists_sync` (part_002 lines 230-232): `fs.existsSync(this.isAt) &&
this instanceof roadType(this.isAt)`; an UnknownKindError from `roadType`
is not caught in the sync form. -/
def Road.exists_sync (fs : Fs) (r : Road) : Except RoadErr Bool :=
  if existsSync fs r.pointsTo then
    match roadType fs r.pointsTo with
    | .error e => .error e
    | .ok k => .ok (k = r.ctorKind)
  else .ok false

/-- Model of `exists` (async form, part_002 lines 242-249): `fp.access` then the
`instanceof roadType` check, with a catch-all returning false. -/
def Road.existsAsync (fs : Fs) (r : Road) : Bool :=
  if accessOk fs r.pointsTo then
    match roadType fs r.pointsTo with
    | .error _ => false
    | .ok k => k = r.ctorKind
  else false

/-- Model of `stats_sync` / `stats` (part_002 lines 256-266): a plain lstat. -/
def Road.stats_sync (fs : Fs) (r : Road) : Except RoadErr FsNode :=
  lstat fs r.pointsTo

/-- Model of `accessible_sync` / `accessible` (part_002 lines 329-357) at `F_OK`:
ENOENT/EACCES become `false`. -/
def Road.accessible_sync (fs : Fs) (r : Road) : Bool :=
  accessOk fs r.pointsTo

/-- Model of `parent` (part_002 lines 284-286): `new Folder(ph.dirname(this.isAt))` —
a full `Folder` construction, so it throws when the parent path is absent or
not a directory. -/
def Road.parentOf (fs : Fs) (r : Road) : Except RoadErr Road :=
  Road.construct fs .folder (dirname r.pointsTo)

/-- The `ancestors` while-loop (part_002 lines 294-302) expressed on the
current folder's path: construct `current.parent()` (a `Folder` build of the
dirname, which can throw); if `current.isAt` equals that parent's path the
loop stops, otherwise `current` is pushed and the walk continues from the
parent.  The successfully constructed parent's path is definitionally the
dirname of `p`, which strictly shortens the path — the loop's termination
argument. -/
def ancestorsLoop (fs : Fs) (p : Path) : Except RoadErr (List Road) :=
  match Road.construct fs .folder (dirname p) with
  | .error e => .error e
  | .ok _ =>
    if h : p = dirname p then .ok []
    else
      match ancestorsLoop fs (dirname p) with
      | .error e => .error e
      | .ok rest => .ok (⟨p, .folder, true, false⟩ :: rest)
  termination_by p.length
  decreasing_by
    simp only [dirname] at *
    have hne : p ≠ [] := by
      intro hnil; exact h (by simp [hnil, dirname])
    have := List.length_dropLast p
    have hpos : 0 < p.length := List.length_pos.mpr hne
    omega

/-- Model of `ancestors` (part_002 lines 294-302): start from `this.parent()` and run
the loop. -/
def Road.ancestors (fs : Fs) (r : Road) : Except RoadErr (List Road) :=
  match Road.construct fs .folder (dirname r.pointsTo) with
  | .error e => .error e
  | .ok c => ancestorsLoop fs c.pointsTo

/-- Model of `File.delete_sync` (part_002 lines 765-768): `assert_mutable` then
`fs.unlinkSync`. -/
def File.delete_sync (fs : Fs) (r : Road) : Except RoadErr Fs :=
  match r.assert_mutable with
  | .error e => .error e
  | .ok _ => unlink fs r.pointsTo

/-- Model of `File.delete` (part_002 lines 778-781): `assert_mutable` then
`fp.unlink`. -/
def File.deleteAsync (fs : Fs) (r : Road) : Except RoadErr Fs :=
  match r.assert_mutable with
  | .error e => .error e
  | .ok _ => unlink fs r.pointsTo

/-- Model of `File.move_sync` (part_002 lines 788-793): `assert_mutable`, compute
`_into.join(this.name())`, rename, update `pointsTo`. -/
def File.move_sync (fs : Fs) (r : Road) (into : Road) : Except RoadErr (Fs × Road) :=
  match r.assert_mutable with
  | .error e => .error e
  | .ok _ =>
    let newPath := joinPath into.pointsTo (basename r.pointsTo)
    match renameFs fs r.pointsTo newPath with
    | .error e => .error e
    | .ok fs' => .ok (fs', { r with pointsTo := newPath })

/-- Model of `File.move` (part_002 lines 800-805): async form of the same. -/
def File.moveAsync (fs : Fs) (r : Road) (into : Road) : Except RoadErr (Fs × Road) :=
  match r.assert_mutable with
  | .error e => .error e
  | .ok _ =>
    let newPath := joinPath into.pointsTo (basename r.pointsTo)
    match renameFs fs r.pointsTo newPath with
    | .error e => .error e
    | .ok fs' => .ok (fs', { r with pointsTo := newPath })

/-- Model of `File.copy_sync` (part_002 lines 812-816): compute the destination path,
`fs.copyFileSync`, return `new File(newPath)`.  Note: no `assert_mutable`
call appears in the source body. -/
def File.copy_sync (fs : Fs) (r : Road) (into : Road) : Except RoadErr (Fs × Road) :=
  let newPath := joinPath into.pointsTo (basename r.pointsTo)
  match copyFile fs r.pointsTo newPath with
  | .error e => .error e
  | .ok fs' =>
    match Road.construct fs' .file newPath with
    | .error e => .error e
    | .ok h => .ok (fs', h)

/-- Model of `File.copy` (part_002 lines 823-827): async form; likewise no
`assert_mutable` call in the source body. -/
def File.copyAsync (fs : Fs) (r : Road) (into : Road) : Except RoadErr (Fs × Road) :=
  let newPath := joinPath into.pointsTo (basename r.pointsTo)
  match copyFile fs r.pointsTo newPath with
  | .error e => .error e
  | .ok fs' =>
    match Road.construct fs' .file newPath with
    | .error e => .error e
    | .ok h => .ok (fs', h)

/-- Model of `File.rename_sync` (part_002 lines 839-844): `assert_mutable`, build
`this.parent().join(_to)` (the `parent()` call constructs a `Folder` and can
throw), rename, update `pointsTo`. -/
def File.rename_sync (fs : Fs) (r : Road) (newName : String) : Except RoadErr (Fs × Road) :=
  match r.assert_mutable with
  | .error e => .error e
  | .ok _ =>
    match Road.construct fs .folder (dirname r.pointsTo) with
    | .error e => .error e
    | .ok par =>
      let newPath := joinPath par.pointsTo newName
      match renameFs fs r.pointsTo newPath with
      | .error e => .error e
      | .ok fs' => .ok (fs', { r with pointsTo := newPath })

/-- Model of `File.rename` (part_002 lines 852-857): async form of the same. -/
def File.renameAsync (fs : Fs) (r : Road) (newName : String) : Except RoadErr (Fs × Road) :=
  match r.assert_mutable with
  | .error e => .error e
  | .ok _ =>
    match Road.construct fs .folder (dirname r.pointsTo) with
    | .error e => .error e
    | .ok par =>
      let newPath := joinPath par.pointsTo newName
      match renameFs fs r.pointsTo newPath with
      | .error e => .error e
      | .ok fs' => .ok (fs', { r with pointsTo := newPath })

/-- Model of `File.same_as` (part_002 lines 724-730): if `this.isAt !== _other.isAt`
return `false` immediately; otherwise read both files and compare the
buffers byte for byte. -/
def File.same_as (fs : Fs) (r other : Road) : Except RoadErr Bool :=
  if r.pointsTo ≠ other.pointsTo then .ok false
  else
    match readFile fs r.pointsTo with
    | .error e => .error e
    | .ok thisBuffer =>
      match readFile fs other.pointsTo with
      | .error e => .error e
      | .ok otherBuffer => .ok (thisBuffer = otherBuffer)

/-- Model of `File.same_as_sync` (part_002 lines 738-744): the sync form, same
semantics. -/
def File.same_as_sync (fs : Fs) (r other : Road) : Except RoadErr Bool :=
  if r.pointsTo ≠ other.pointsTo then .ok false
  else
    match readFile fs r.pointsTo with
    | .error e => .error e
    | .ok thisBuffer =>
      match readFile fs other.pointsTo with
      | .error e => .error e
      | .ok otherBuffer => .ok (thisBuffer = otherBuffer)

/-- The chunked read loop of `it_bytes_sync` / `it_bytes` (part_002 lines
611-624 and 636-650) on the opened file's bytes: each `readSync` returns
`min chunkSize remaining` bytes at the current offset; a chunk is yielded
when the read is non-empty, and the do/while loop continues exactly while
`bytesRead === chunkSize`.  For `chunkSize = 0` the source loop never
terminates (every read returns 0 === chunkSize); the claims only concern
positive chunk sizes, and the model returns `[]` on that unreachable
input. -/
def chunkLoop (chunkSize : Nat) (content : List Nat) : List (List Nat) :=
  if h : chunkSize = 0 then []
  else if hlt : content.length < chunkSize then
    if content.isEmpty then [] else [content]
  else
    content.take chunkSize :: chunkLoop chunkSize (content.drop chunkSize)
  termination_by content.length
  decreasing_by
    simp only [List.length_drop]
    omega

/-- Model of `File.it_bytes_sync` (part_002 lines 611-624): `fs.openSync(isAt, 'r')`
(follows links, requires a readable regular file) then the chunked read
loop; the yielded chunks in order. -/
def File.it_bytes_sync (fs : Fs) (r : Road) (chunkSize : Nat) : Except RoadErr (List (List Nat)) :=
  match followLinks linkFuel fs r.pointsTo with
  | none => .error .notFound
  | some (_, n) =>
    match roadTypeOfMode n.mode with
    | .ok .file => .ok (chunkLoop chunkSize n.content)
    | _ => .error .fsError

/-- Model of `File.it_bytes` (part_002 lines 636-650): async form, identical chunk
sequence. -/
def File.it_bytes (fs : Fs) (r : Road) (chunkSize : Nat) : Except RoadErr (List (List Nat)) :=
  match followLinks linkFuel fs r.pointsTo with
  | none => .error .notFound
  | some (_, n) =>
    match roadTypeOfMode n.mode with
    | .ok .file => .ok (chunkLoop chunkSize n.content)
    | _ => .error .fsError

/-- Model of `Folder.delete_sync` (part_002 lines 1005-1008): `assert_mutable` then
`fs.rmdirSync(isAt, recursive)`. -/
def Folder.delete_sync (fs : Fs) (r : Road) : Except RoadErr Fs :=
  match r.assert_mutable with
  | .error e => .error e
  | .ok _ => rmdirRec fs r.pointsTo

/-- Model of `Folder.delete` (part_002 lines 1018-1021): async form. -/
def Folder.deleteAsync (fs : Fs) (r : Road) : Except RoadErr Fs :=
  match r.assert_mutable with
  | .error e => .error e
  | .ok _ => rmdirRec fs r.pointsTo

/-- Model of `Folder.move_sync` (part_002 lines 1033-1038). -/
def Folder.move_sync (fs : Fs) (r : Road) (into : Road) : Except RoadErr (Fs × Road) :=
  match r.assert_mutable with
  | .error e => .error e
  | .ok _ =>
    let newPath := joinPath into.pointsTo (basename r.pointsTo)
    match renameFs fs r.pointsTo newPath with
    | .error e => .error e
    | .ok fs' => .ok (fs', { r with pointsTo := newPath })

/-- Model of `Folder.move` (part_002 lines 1050-1055). -/
def Folder.moveAsync (fs : Fs) (r : Road) (into : Road) : Except RoadErr (Fs × Road) :=
  match r.assert_mutable with
  | .error e => .error e
  | .ok _ =>
    let newPath := joinPath into.pointsTo (basename r.pointsTo)
    match renameFs fs r.pointsTo newPath with
    | .error e => .error e
    | .ok fs' => .ok (fs', { r with pointsTo := newPath })

/-- Model of `Folder.copy_sync` (part_002 lines 1066-1070): `fs.cpSync(...,
recursive)` into `_into.join(this.name())`, returning `new Folder(newPath)`;
no `assert_mutable` call in the source body. -/
def Folder.copy_sync (fs : Fs) (r : Road) (into : Road) : Except RoadErr (Fs × Road) :=
  let newPath := joinPath into.pointsTo (basename r.pointsTo)
  match cpTree fs r.pointsTo newPath with
  | .error e => .error e
  | .ok fs' =>
    match Road.construct fs' .folder newPath with
    | .error e => .error e
    | .ok h => .ok (fs', h)

/-- Model of `Folder.copy` (part_002 lines 1077-1081): async form; likewise no
`assert_mutable`. -/
def Folder.copyAsync (fs : Fs) (r : Road) (into : Road) : Except RoadErr (Fs × Road) :=
  let newPath := joinPath into.pointsTo (basename r.pointsTo)
  match cpTree fs r.pointsTo newPath with
  | .error e => .error e
  | .ok fs' =>
    match Road.construct fs' .folder newPath with
    | .error e => .error e
    | .ok h => .ok (fs', h)

/-- Model of `Folder.rename_sync` (part_002 lines 1093-1098). -/
def Folder.rename_sync (fs : Fs) (r : Road) (newName : String) : Except RoadErr (Fs × Road) :=
  match r.assert_mutable with
  | .error e => .error e
  | .ok _ =>
    match Road.construct fs .folder (dirname r.pointsTo) with
    | .error e => .error e
    | .ok par =>
      let newPath := joinPath par.pointsTo newName
      match renameFs fs r.pointsTo newPath with
      | .error e => .error e
      | .ok fs' => .ok (fs', { r with pointsTo := newPath })

/-- Model of `Folder.rename` (part_002 lines 1106-1111). -/
def Folder.renameAsync (fs : Fs) (r : Road) (newName : String) : Except RoadErr (Fs × Road) :=
  match r.assert_mutable with
  | .error e => .error e
  | .ok _ =>
    match Road.construct fs .folder (dirname r.pointsTo) with
    | .error e => .error e
    | .ok par =>
      let newPath := joinPath par.pointsTo newName
      match renameFs fs r.pointsTo newPath with
      | .error e => .error e
      | .ok fs' => .ok (fs', { r with pointsTo := newPath })

/-- Model of `Folder.find_sync` without a type filter (part_002 lines 956-970):
`accessSync(this.join(name))` then `Road.factory_sync(this.join(name))`,
with every thrown error caught and turned into `null`.  The name is joined
as-is: no check rejects names that contain a path separator. -/
def Folder.find_sync (fs : Fs) (r : Road) (name : String) : Option Road :=
  let p := joinPath r.pointsTo name
  if accessOk fs p then
    match Road.factory_sync fs p with
    | .ok h => some h
    | .error _ => none
  else none

/-- Model of `Folder.find` without a type filter (part_002 lines 979-993): async
form, same semantics. -/
def Folder.findAsync (fs : Fs) (r : Road) (name : String) : Option Road :=
  let p := joinPath r.pointsTo name
  if accessOk fs p then
    match Road.factory fs p with
    | .ok h => some h
    | .error _ => none
  else none

/-- Model of `SymbolicLink.target_sync` (part_002 lines 1180-1182):
`Road.factory_sync(ph.resolve(ph.dirname(isAt), fs.readlinkSync(isAt)))`;
`readlink` fails on a non-link (EINVAL) or a missing entry (ENOENT).  The
stored target is kept already resolved in the model. -/
def SymbolicLink.target_sync (fs : Fs) (r : Road) : Except RoadErr Road :=
  match fsGet fs r.pointsTo with
  | none => .error .notFound
  | some n =>
    if isLinkNode n then Road.factory_sync fs n.target else .error .fsError

/-- Model of `SymbolicLink.delete_sync` (part_002 lines 1231-1234): `assert_mutable`
then unlink the link itself. -/
def SymbolicLink.delete_sync (fs : Fs) (r : Road) : Except RoadErr Fs :=
  match r.assert_mutable with
  | .error e => .error e
  | .ok _ => unlink fs r.pointsTo

/-- Model of `SymbolicLink.delete` (part_002 lines 1244-1247): async form. -/
def SymbolicLink.deleteAsync (fs : Fs) (r : Road) : Except RoadErr Fs :=
  match r.assert_mutable with
  | .error e => .error e
  | .ok _ => unlink fs r.pointsTo

/-- Model of `SymbolicLink.move_sync` (part_002 lines 1254-1259). -/
def SymbolicLink.move_sync (fs : Fs) (r : Road) (into : Road) : Except RoadErr (Fs × Road) :=
  match r.assert_mutable with
  | .error e => .error e
  | .ok _ =>
    let newPath := joinPath into.pointsTo (basename r.pointsTo)
    match renameFs fs r.pointsTo newPath with
    | .error e => .error e
    | .ok fs' => .ok (fs', { r with pointsTo := newPath })

/-- Model of `SymbolicLink.move` (part_002 lines 1271-1276). -/
def SymbolicLink.moveAsync (fs : Fs) (r : Road) (into : Road) : Except RoadErr (Fs × Road) :=
  match r.assert_mutable with
  | .error e => .error e
  | .ok _ =>
    let newPath := joinPath into.pointsTo (basename r.pointsTo)
    match renameFs fs r.pointsTo newPath with
    | .error e => .error e
    | .ok fs' => .ok (fs', { r with pointsTo := newPath })

/-- Model of `SymbolicLink.copy_sync` (part_002 lines 1287-1292): resolve the current
target, create a fresh link at the destination pointing at it; no
`assert_mutable` call in the source body. -/
def SymbolicLink.copy_sync (fs : Fs) (r : Road) (into : Road) : Except RoadErr (Fs × Road) :=
  let newPath := joinPath into.pointsTo (basename r.pointsTo)
  match SymbolicLink.target_sync fs r with
  | .error e => .error e
  | .ok target =>
    match symlinkNew fs target.pointsTo newPath with
    | .error e => .error e
    | .ok fs' =>
      match Road.construct fs' .symlink newPath with
      | .error e => .error e
      | .ok h => .ok (fs', h)

/-- Model of `SymbolicLink.copy` (part_002 lines 1302-1307): async form; likewise no
`assert_mutable`. -/
def SymbolicLink.copyAsync (fs : Fs) (r : Road) (into : Road) : Except RoadErr (Fs × Road) :=
  let newPath := joinPath into.pointsTo (basename r.pointsTo)
  match SymbolicLink.target_sync fs r with
  | .error e => .error e
  | .ok target =>
    match symlinkNew fs target.pointsTo newPath with
    | .error e => .error e
    | .ok fs' =>
      match Road.construct fs' .symlink newPath with
      | .error e => .error e
      | .ok h => .ok (fs', h)

/-- Model of `SymbolicLink.rename_sync` (part_002 lines 1318-1323). -/
def SymbolicLink.rename_sync (fs : Fs) (r : Road) (newName : String) : Except RoadErr (Fs × Road) :=
  match r.assert_mutable with
  | .error e => .error e
  | .ok _ =>
    match Road.construct fs .folder (dirname r.pointsTo) with
    | .error e => .error e
    | .ok par =>
      let newPath := joinPath par.pointsTo newName
      match renameFs fs r.pointsTo newPath with
      | .error e => .error e
      | .ok fs' => .ok (fs', { r with pointsTo := newPath })

/-- Model of `SymbolicLink.rename` (part_002 lines 1331-1336). -/
def SymbolicLink.renameAsync (fs : Fs) (r : Road) (newName : String) : Except RoadErr (Fs × Road) :=
  match r.assert_mutable with
  | .error e => .error e
  | .ok _ =>
    match Road.construct fs .folder (dirname r.pointsTo) with
    | .error e => .error e
    | .ok par =>
      let newPath := joinPath par.pointsTo newName
      match renameFs fs r.pointsTo newPath with
      | .error e => .error e
      | .ok fs' => .ok (fs', { r with pointsTo := newPath })

/-- Model of `UnusuableRoad.delete_sync` (part_002 line 1364): throws the
NotSupportedError naming the concrete type and the path. -/
def UnusuableRoad.delete_sync (_fs : Fs) (r : Road) : Except RoadErr Fs :=
  .error (.notSupported r.ctorKind r.pointsTo)

/-- Model of `UnusuableRoad.delete` (part_002 line 1365). -/
def UnusuableRoad.deleteAsync (_fs : Fs) (r : Road) : Except RoadErr Fs :=
  .error (.notSupported r.ctorKind r.pointsTo)

/-- Model of `UnusuableRoad.move_sync` (part_002 line 1366). -/
def UnusuableRoad.move_sync (_fs : Fs) (r : Road) (_into : Road) : Except RoadErr (Fs × Road) :=
  .error (.notSupported r.ctorKind r.pointsTo)

/-- Model of `UnusuableRoad.move` (part_002 line 1367). -/
def UnusuableRoad.moveAsync (_fs : Fs) (r : Road) (_into : Road) : Except RoadErr (Fs × Road) :=
  .error (.notSupported r.ctorKind r.pointsTo)

/-- Model of `UnusuableRoad.copy_sync` (part_002 line 1368). -/
def UnusuableRoad.copy_sync (_fs : Fs) (r : Road) (_into : Road) : Except RoadErr (Fs × Road) :=
  .error (.notSupported r.ctorKind r.pointsTo)

/-- Model of `UnusuableRoad.copy` (part_002 line 1369). -/
def UnusuableRoad.copyAsync (_fs : Fs) (r : Road) (_into : Road) : Except RoadErr (Fs × Road) :=
  .error (.notSupported r.ctorKind r.pointsTo)

/-- Model of `UnusuableRoad.rename_sync` (part_002 line 1370). -/
def UnusuableRoad.rename_sync (_fs : Fs) (r : Road) (_to : String) : Except RoadErr (Fs × Road) :=
  .error (.notSupported r.ctorKind r.pointsTo)

/-- Model of `UnusuableRoad.rename` (part_002 line 1371). -/
def UnusuableRoad.renameAsync (_fs : Fs) (r : Road) (_to : String) : Except RoadErr (Fs × Road) :=
  .error (.notSupported r.ctorKind r.pointsTo)

/-- Virtual dispatch of `delete_sync` over the concrete subclass a handle
was constructed as. -/
def Road.delete_sync (fs : Fs) (r : Road) : Except RoadErr Fs :=
  match r.ctorKind with
  | .file => File.delete_sync fs r
  | .folder => Folder.delete_sync fs r
  | .symlink => SymbolicLink.delete_sync fs r
  | _ => UnusuableRoad.delete_sync fs r

/-- Virtual dispatch of the async `delete`. -/
def Road.deleteAsync (fs : Fs) (r : Road) : Except RoadErr Fs :=
  match r.ctorKind with
  | .file => File.deleteAsync fs r
  | .folder => Folder.deleteAsync fs r
  | .symlink => SymbolicLink.deleteAsync fs r
  | _ => UnusuableRoad.deleteAsync fs r

/-- Virtual dispatch of `move_sync`. -/
def Road.move_sync (fs : Fs) (r : Road) (into : Road) : Except RoadErr (Fs × Road) :=
  match r.ctorKind with
  | .file => File.move_sync fs r into
  | .folder => Folder.move_sync fs r into
  | .symlink => SymbolicLink.move_sync fs r into
  | _ => UnusuableRoad.move_sync fs r into

/-- Virtual dispatch of the async `move`. -/
def Road.moveAsync (fs : Fs) (r : Road) (into : Road) : Except RoadErr (Fs × Road) :=
  match r.ctorKind with
  | .file => File.moveAsync fs r into
  | .folder => Folder.moveAsync fs r into
  | .symlink => SymbolicLink.moveAsync fs r into
  | _ => UnusuableRoad.moveAsync fs r into

/-- Virtual dispatch of `copy_sync`. -/
def Road.copy_sync (fs : Fs) (r : Road) (into : Road) : Except RoadErr (Fs × Road) :=
  match r.ctorKind with
  | .file => File.copy_sync fs r into
  | .folder => Folder.copy_sync fs r into
  | .symlink => SymbolicLink.copy_sync fs r into
  | _ => UnusuableRoad.copy_sync fs r into

/-- Virtual dispatch of the async `copy`. -/
def Road.copyAsync (fs : Fs) (r : Road) (into : Road) : Except RoadErr (Fs × Road) :=
  match r.ctorKind with
  | .file => File.copyAsync fs r into
  | .folder => Folder.copyAsync fs r into
  | .symlink => SymbolicLink.copyAsync fs r into
  | _ => UnusuableRoad.copyAsync fs r into

/-- Virtual dispatch of `rename_sync`. -/
def Road.rename_sync (fs : Fs) (r : Road) (newName : String) : Except RoadErr (Fs × Road) :=
  match r.ctorKind with
  | .file => File.rename_sync fs r newName
  | .folder => Folder.rename_sync fs r newName
  | .symlink => SymbolicLink.rename_sync fs r newName
  | _ => UnusuableRoad.rename_sync fs r newName

/-- Virtual dispatch of the async `rename`. -/
def Road.renameAsync (fs : Fs) (r : Road) (newName : String) : Except RoadErr (Fs × Road) :=
  match r.ctorKind with
  | .file => File.renameAsync fs r newName
  | .folder => Folder.renameAsync fs r newName
  | .symlink => SymbolicLink.renameAsync fs r newName
  | _ => UnusuableRoad.renameAsync fs r newName

/-- Model of `TempFile[Symbol.dispose]` (part_002 lines 1466-1468): a bare
`this.delete_sync()` with no try/catch — a deletion failure propagates out
of the dispose hook. -/
def TempFile.dispose (fs : Fs) (r : Road) : Except RoadErr Fs :=
  File.delete_sync fs r

/-- Model of `TempFile[Symbol.asyncDispose]` (part_002 lines 1469-1471): a bare
`await this.delete()` with no try/catch. -/
def TempFile.asyncDispose (fs : Fs) (r : Road) : Except RoadErr Fs :=
  File.deleteAsync fs r

/-- Model of `TempFolder[Symbol.dispose]` (part_002 lines 1497-1499): a bare
`this.delete_sync()` with no try/catch. -/
def TempFolder.dispose (fs : Fs) (r : Road) : Except RoadErr Fs :=
  Folder.delete_sync fs r

/-- Model of `TempFolder[Symbol.asyncDispose]` (part_002 lines 1500-1502): a bare
`await this.delete()` with no try/catch. -/
def TempFolder.asyncDispose (fs : Fs) (r : Road) : Except RoadErr Fs :=
  Folder.deleteAsync fs r

/-- node.ts `File.delete_sync` (src/src/node.ts lines 257-259): a plain
`fs.unlinkSync(this.isAt)`; this variant has no mutability gate at all. -/
def NodeVariant.File.delete_sync (fs : Fs) (r : Road) : Except RoadErr Fs :=
  unlink fs r.pointsTo

/-- node.ts `Folder.delete_sync` (src/src/node.ts lines 372-374):
`fs.rmdirSync(this.isAt, recursive)`. -/
def NodeVariant.Folder.delete_sync (fs : Fs) (r : Road) : Except RoadErr Fs :=
  rmdirRec fs r.pointsTo

/-- node.ts `TempFile[Symbol.dispose]` (src/src/node.ts lines 547-549):
`try { this.delete_sync() } catch { console.error(...) }`.  The result is
the filesystem after the attempt together with the flag of whether a
deletion failure was logged (and swallowed); the hook itself cannot
throw. -/
def NodeVariant.TempFile.dispose (fs : Fs) (r : Road) : Fs × Bool :=
  match NodeVariant.File.delete_sync fs r with
  | .ok fs' => (fs', false)
  | .error _ => (fs, true)

/-- node.ts `TempFolder[Symbol.dispose]` (src/src/node.ts lines 557-559):
same try/catch-and-log shape around the recursive delete. -/
def NodeVariant.TempFolder.dispose (fs : Fs) (r : Road) : Fs × Bool :=
  match NodeVariant.Folder.delete_sync fs r with
  | .ok fs' => (fs', false)
  | .error _ => (fs, true)

/-- part_003 `Folder.find` (src/unnamed/part_003 lines 223-240): an empty
name throws, a name containing "/" or "\\" throws (`Invalid path: Not
relative or is nested`), an absent child gives `undefined`, and otherwise
`road_factory` classifies and returns the child (modelled as its path and
kind). -/
def P3.Folder.find (fs : Fs) (r : Road) (lookFor : String) : Except RoadErr (Option (Path × RoadT)) :=
  if lookFor.length = 0 then .error .invalidPath
  else if lookFor.data.contains '/' || lookFor.data.contains '\\' then .error .invalidPath
  else if !existsSync fs (joinPath r.pointsTo lookFor) then .ok none
  else
    match roadType fs (joinPath r.pointsTo lookFor) with
    | .error e => .error e
    | .ok k => .ok (some (joinPath r.pointsTo lookFor, k))

/-- The chain of nonempty prefixes of `p`, from `p` itself down to (and
excluding) the root: the paths the `ancestors` loop visits starting at
`p`. -/
def chainFrom (p : Path) : List Path :=
  if h : p = [] then [] else p :: chainFrom (dirname p)
  termination_by p.length
  decreasing_by
    simp only [dirname]
    have hpos : 0 < p.length := List.length_pos.mpr h
    have := List.length_dropLast p
    omega

/-- The spec's description of the `ancestors` result: the ancestor
directories of `p` ordered from the immediate parent upward, excluding the
self-referential root. -/
def ancestorPaths (p : Path) : List Path := chainFrom (dirname p)

/-- The spec's description of the chunk sizes yielded by the chunked byte
iteration over `n` bytes with chunk size `c`: `ceil(n/c)` chunks, each of
`c` bytes except a shorter final chunk when `c` does not divide `n`. -/
def specChunkSizes (c n : Nat) : List Nat :=
  (List.range ((n + c - 1) / c)).map (fun i => min c (n - i * c))

/-- A directory node with typical permissions (mode 0o040755). -/
def dirNode : FsNode := { mode := 16877 }

/-- A regular-file node with the given bytes (mode 0o100644). -/
def fileNode (content : List Nat) : FsNode := { mode := 33188, content := content }

/-- A symbolic-link node with the given stored target (mode 0o120777). -/
def linkNode (target : Path) : FsNode := { mode := 41471, target := target }

/-- A FIFO node (mode 0o010644). -/
def fifoNode : FsNode := { mode := 4516 }

/-- A socket node (mode 0o140755). -/
def sockNode : FsNode := { mode := 49645 }

instance {ε α : Type} [DecidableEq ε] [DecidableEq α] : DecidableEq (Except ε α) := fun a b =>
  match a, b with
  | .ok x, .ok y =>
    if h : x = y then isTrue (by rw [h]) else isFalse (fun hc => h (Except.ok.inj hc))
  | .error x, .error y =>
    if h : x = y then isTrue (by rw [h]) else isFalse (fun hc => h (Except.error.inj hc))
  | .ok _, .error _ => isFalse (fun hc => Except.noConfusion hc)
  | .error _, .ok _ => isFalse (fun hc => Except.noConfusion hc)

/-! ### Helper lemmas about the chunked read loop -/

theorem chunkLoop_flatten (c : Nat) (hc : 0 < c) (content : List Nat) :
    (chunkLoop c content).flatten = content := by
  induction content using chunkLoop.induct c with
  | case1 content h => omega
  | case2 content h hlt hemp =>
    rw [chunkLoop]
    simp [h, hlt, hemp]
    simp_all [List.isEmpty_iff]
  | case3 content h hlt hemp =>
    rw [chunkLoop]
    simp [h, hlt, hemp, List.isEmpty_iff]
  | case4 content h hlt ih =>
    rw [chunkLoop]
    simp [h, hlt, ih]

theorem specChunkSizes_zero (c : Nat) (hc : 0 < c) : specChunkSizes c 0 = [] := by
  have hz : (c - 1) / c = 0 := Nat.div_eq_of_lt (by omega)
  simp [specChunkSizes, hz]

theorem specChunkSizes_small (c n : Nat) (hn : 0 < n) (hlt : n < c) :
    specChunkSizes c n = [n] := by
  have hdiv : (n + c - 1) / c = 1 := by
    apply Nat.div_eq_of_lt_le <;> omega
  simp [specChunkSizes, hdiv, List.range_succ, Nat.min_eq_right (le_of_lt hlt)]

theorem specChunkSizes_step (c n : Nat) (hc : 0 < c) (hcn : c ≤ n) :
    specChunkSizes c n = c :: specChunkSizes c (n - c) := by
  have h1 : n + c - 1 = (n - 1) + c := by omega
  have h2 : (n - c) + c - 1 = n - 1 := by omega
  have hdiv : (n + c - 1) / c = (n - 1) / c + 1 := by
    rw [h1, Nat.add_div_right _ hc]
  unfold specChunkSizes
  rw [hdiv, h2, List.range_succ_eq_map]
  simp only [List.map_cons, List.map_map, Nat.zero_mul, Nat.sub_zero,
    Nat.min_eq_left hcn]
  congr 1
  apply List.map_congr_left
  intro i _
  simp only [Function.comp_apply, Nat.succ_eq_add_one]
  have hmul : (i + 1) * c = i * c + c := by ring
  rw [hmul]
  congr 1
  omega

theorem chunkLoop_map_length (c : Nat) (hc : 0 < c) (content : List Nat) :
    (chunkLoop c content).map List.length = specChunkSizes c content.length := by
  induction content using chunkLoop.induct c with
  | case1 content h => omega
  | case2 content h hlt hemp =>
    have : content = [] := List.isEmpty_iff.mp hemp
    subst this
    rw [chunkLoop]
    simp [h, specChunkSizes_zero c hc]
  | case3 content h hlt hemp =>
    have hne : content ≠ [] := by simpa [List.isEmpty_iff] using hemp
    have hpos : 0 < content.length := List.length_pos.mpr hne
    rw [chunkLoop]
    simp [h, hlt, hemp, specChunkSizes_small c content.length hpos hlt]
  | case4 content h hlt ih =>
    have hcn : c ≤ content.length := by omega
    rw [chunkLoop]
    simp only [h, dite_false, hlt, dite_eq_ite, if_false, List.map_cons,
      List.length_take, Nat.min_eq_left hcn]
    rw [ih, specChunkSizes_step c content.length hc hcn]
    simp [Nat.min_eq_left hcn]

theorem specChunkSizes_length (c n : Nat) :
    (specChunkSizes c n).length = (n + c - 1) / c := by
  simp [specChunkSizes]

theorem specChunkSizes_closed (c : Nat) (hc : 0 < c) : ∀ n : Nat,
    specChunkSizes c n =
      if c ∣ n then List.replicate (n / c) c
      else List.replicate (n / c) c ++ [n % c] := by
  intro n
  induction n using Nat.strong_induction_on with
  | _ n ih =>
    rcases Nat.eq_zero_or_pos n with h0 | hn
    · subst h0
      simp [specChunkSizes_zero c hc]
    · rcases lt_or_le n c with hlt | hge
      · have hnd : ¬ c ∣ n := by
          intro hd
          have := Nat.le_of_dvd hn hd
          omega
        have hdiv0 : n / c = 0 := Nat.div_eq_of_lt hlt
        rw [specChunkSizes_small c n hn hlt]
        simp [hnd, hdiv0, Nat.mod_eq_of_lt hlt]
      · obtain ⟨m, rfl⟩ : ∃ m, n = m + c := ⟨n - c, by omega⟩
        rw [specChunkSizes_step c (m + c) hc (by omega)]
        have hm : m + c - c = m := by omega
        rw [hm, ih m (by omega)]
        have hdiv : (m + c) / c = m / c + 1 := Nat.add_div_right _ hc
        have hmod : (m + c) % c = m % c := Nat.add_mod_right _ _
        have hdvd : c ∣ m + c ↔ c ∣ m := Nat.dvd_add_self_right
        by_cases hd : c ∣ m
        · simp [hdvd.mpr hd, hd, hdiv, List.replicate_succ]
        · have hnd : ¬ c ∣ m + c := fun h => hd (hdvd.mp h)
          simp [hnd, hd, hdiv, hmod, List.replicate_succ]

/-- C7: for every regular file of `n > 0` bytes reachable at the handle's
path and every chunk size `c > 0`, `it_bytes_sync` / `it_bytes` yield the
do/while read loop's chunk sequence: `ceil(n/c)` chunks in file order, each
of size `c` except a shorter final chunk of size `n % c` when `c` does not
divide `n`, whose concatenation is exactly the file's content. -/
theorem claim_C7_chunked_iteration (fs : Fs) (r : Road) (c : Nat) (q : Path) (n : FsNode)
    (hfollow : followLinks linkFuel fs r.pointsTo = some (q, n))
    (hfile : roadTypeOfMode n.mode = .ok .file)
    (hc : 0 < c) (hn : 0 < n.content.length) :
    File.it_bytes_sync fs r c = .ok (chunkLoop c n.content) ∧
    File.it_bytes fs r c = .ok (chunkLoop c n.content) ∧
    (chunkLoop c n.content).length = (n.content.length + c - 1) / c ∧
    (c ∣ n.content.length →
      (chunkLoop c n.content).map List.length
        = List.replicate (n.content.length / c) c) ∧
    (¬ c ∣ n.content.length →
      (chunkLoop c n.content).map List.length
        = List.replicate (n.content.length / c) c ++ [n.content.length % c]) ∧
    (chunkLoop c n.content).flatten = n.content := by
  refine ⟨?_, ?_, ?_, ?_, ?_, chunkLoop_flatten c hc n.content⟩
  · simp [File.it_bytes_sync, hfollow, hfile]
  · simp [File.it_bytes, hfollow, hfile]
  · have hmap := congrArg List.length (chunkLoop_map_length c hc n.content)
    simpa [specChunkSizes_length] using hmap
  · intro hd
    rw [chunkLoop_map_length c hc n.content, specChunkSizes_closed c hc]
    simp [hd]
  · intro hd
    rw [chunkLoop_map_length c hc n.content, specChunkSizes_closed c hc]
    simp [hd]

/-- C7 witness: a 2500-byte file iterated with the default chunk size 1024
yields three chunks of sizes 1024, 1024, 452, concatenating back to the
original content. -/
theorem claim_C7_chunked_iteration_witness :
    File.it_bytes_sync [(["f"], fileNode (List.replicate 2500 7))]
        ⟨["f"], .file, true, false⟩ 1024
      = .ok (chunkLoop 1024 (List.replicate 2500 7)) ∧
    (chunkLoop 1024 (List.replicate 2500 7)).map List.length = [1024, 1024, 452] ∧
    (chunkLoop 1024 (List.replicate 2500 7)).flatten = List.replicate 2500 7 := by
  have hcontent : (fileNode (List.replicate 2500 7)).content = List.replicate 2500 7 := rfl
  have hlen : (fileNode (List.replicate 2500 7)).content.length = 2500 := by
    rw [hcontent, List.length_replicate]
  have h := claim_C7_chunked_iteration
    [(["f"], fileNode (List.replicate 2500 7))] ⟨["f"], .file, true, false⟩ 1024
    ["f"] (fileNode (List.replicate 2500 7)) (by rfl) (by rfl) (by norm_num)
    (by rw [hlen]; norm_num)
  have hmap := h.2.2.2.2.1 (by rw [hlen]; decide)
  rw [hcontent] at hmap
  rw [hcontent] at h
  refine ⟨h.1, ?_, h.2.2.2.2.2⟩
  rw [hmap, List.length_replicate]
  decide

/-! ### Helper lemmas about handles and the generic queries -/

theorem construct_ok_shape {fs : Fs} {k : RoadT} {p : Path} {r : Road}
    (h : Road.construct fs k p = .ok r) :
    r = ⟨p, k, !unusableKind k, unusableKind k⟩ ∧
    accessOk fs p = true ∧ roadType fs p = .ok k := by
  unfold Road.construct at h
  cases ha : accessOk fs p with
  | false => simp [ha] at h
  | true =>
    simp only [ha, if_true] at h
    cases hrt : roadType fs p with
    | error e => simp [hrt] at h
    | ok k' =>
      simp only [hrt] at h
      by_cases hk : k' = k
      · subst hk
        simp only [if_pos rfl] at h
        exact ⟨(Except.ok.inj h).symm, rfl, rfl⟩
      · simp [hk] at h

theorem construct_folder_ok {fs : Fs} {p : Path}
    (ha : accessOk fs p = true) (hrt : roadType fs p = .ok .folder) :
    Road.construct fs .folder p = .ok ⟨p, .folder, true, false⟩ := by
  simp [Road.construct, ha, hrt, unusableKind]

theorem existsAsync_true_iff (fs : Fs) (r : Road) :
    Road.existsAsync fs r = true ↔
      (accessOk fs r.pointsTo = true ∧ roadType fs r.pointsTo = .ok r.ctorKind) := by
  unfold Road.existsAsync
  cases ha : accessOk fs r.pointsTo with
  | false => simp [ha]
  | true =>
    cases hrt : roadType fs r.pointsTo with
    | error e => simp [hrt]
    | ok k => simp [hrt, eq_comm]

theorem exists_sync_ok_true_iff (fs : Fs) (r : Road) :
    Road.exists_sync fs r = .ok true ↔
      (existsSync fs r.pointsTo = true ∧ roadType fs r.pointsTo = .ok r.ctorKind) := by
  unfold Road.exists_sync
  cases ha : existsSync fs r.pointsTo with
  | false => simp [ha]
  | true =>
    cases hrt : roadType fs r.pointsTo with
    | error e => simp [hrt]
    | ok k => simp [hrt, eq_comm]

/-! ### C1: content comparison `same_as` -/

/-- C1 counterexample: two regular files with identical byte content `[1,2]`
at the distinct resolved paths `/a` and `/b`.  `same_as_sync` returns
`false` — not `true` as the claim states — and, dually, two handles on the
same resolved path `/a` compare `true`, not `false`. -/
theorem claim_C1_counterexample :
    File.same_as_sync [(["a"], fileNode [1, 2]), (["b"], fileNode [1, 2])]
        ⟨["a"], .file, true, false⟩ ⟨["b"], .file, true, false⟩ = .ok false ∧
    readFile [(["a"], fileNode [1, 2]), (["b"], fileNode [1, 2])] ["a"]
      = readFile [(["a"], fileNode [1, 2]), (["b"], fileNode [1, 2])] ["b"] ∧
    (["a"] : Path) ≠ ["b"] ∧
    File.same_as_sync [(["a"], fileNode [1, 2]), (["b"], fileNode [1, 2])]
        ⟨["a"], .file, true, false⟩ ⟨["a"], .file, true, false⟩ = .ok true := by
  exact ⟨rfl, rfl, by decide, rfl⟩

/-- C1 amended: `same_as` / `same_as_sync` return `false` whenever the two
handles' resolved paths differ, without comparing any bytes; when the
resolved paths are equal they read the same file twice and return `true`
(whenever the read succeeds). -/
theorem claim_C1_same_as_amended (fs : Fs) (a b : Road) :
    (a.pointsTo ≠ b.pointsTo →
      File.same_as_sync fs a b = .ok false ∧ File.same_as fs a b = .ok false) ∧
    (∀ content : List Nat, a.pointsTo = b.pointsTo →
      readFile fs a.pointsTo = .ok content →
      File.same_as_sync fs a b = .ok true ∧ File.same_as fs a b = .ok true) := by
  constructor
  · intro hne
    constructor <;> simp [File.same_as_sync, File.same_as, hne]
  · intro content heq hread
    have hread2 : readFile fs b.pointsTo = .ok content := by rw [← heq]; exact hread
    constructor <;> simp [File.same_as_sync, File.same_as, heq, hread, hread2]

/-- C1 witness for the amended theorem, at the same concrete two-file
state. -/
theorem claim_C1_same_as_amended_witness :
    File.same_as_sync [(["a"], fileNode [1, 2]), (["b"], fileNode [1, 2])]
        ⟨["a"], .file, true, false⟩ ⟨["b"], .file, true, false⟩ = .ok false ∧
    File.same_as_sync [(["a"], fileNode [1, 2])]
        ⟨["a"], .file, true, false⟩ ⟨["a"], .file, true, false⟩ = .ok true := by
  constructor
  · exact ((claim_C1_same_as_amended [(["a"], fileNode [1, 2]), (["b"], fileNode [1, 2])]
      ⟨["a"], .file, true, false⟩ ⟨["b"], .file, true, false⟩).1 (by decide)).1
  · exact ((claim_C1_same_as_amended [(["a"], fileNode [1, 2])]
      ⟨["a"], .file, true, false⟩ ⟨["a"], .file, true, false⟩).2 [1, 2] rfl (by rfl)).1

/-! ### C2: the mutability gate -/

/-- C2 counterexample: a regular-file handle whose `mutable` flag is
`false`; `copy_sync` (dispatching to `File.copy_sync`) performs the copy and
returns the new handle instead of failing with the NotMutableError — the
destination entry appears on disk. -/
theorem claim_C2_counterexample :
    (⟨["f"], .file, false, false⟩ : Road).mutable = false ∧
    Road.copy_sync [(["d"], dirNode), (["f"], fileNode [9])]
        ⟨["f"], .file, false, false⟩ ⟨["d"], .folder, true, false⟩
      = .ok ((["d", "f"], fileNode [9]) :: [(["d"], dirNode), (["f"], fileNode [9])],
          ⟨["d", "f"], .file, true, false⟩) ∧
    Road.copyAsync [(["d"], dirNode), (["f"], fileNode [9])]
        ⟨["f"], .file, false, false⟩ ⟨["d"], .folder, true, false⟩
      = .ok ((["d", "f"], fileNode [9]) :: [(["d"], dirNode), (["f"], fileNode [9])],
          ⟨["d", "f"], .file, true, false⟩) := by
  exact ⟨rfl, rfl, rfl⟩

/-- C2 amended: on every `File`/`Folder`/`SymbolicLink` handle whose
`mutable` flag is false, `delete`, `move` and `rename` (sync and async
forms) fail with the NotMutableError raised by `assert_mutable` before any
filesystem call (the error return carries no new filesystem state, so the
on-disk node is untouched); `copy` / `copy_sync`, however, perform no
mutability check in this snapshot and execute the copy regardless. -/
theorem claim_C2_mutability_gate_amended (fs : Fs) (r into : Road) (newName : String)
    (hmut : r.mutable = false)
    (hkind : r.ctorKind = .file ∨ r.ctorKind = .folder ∨ r.ctorKind = .symlink) :
    Road.delete_sync fs r = .error .notMutable ∧
    Road.deleteAsync fs r = .error .notMutable ∧
    Road.move_sync fs r into = .error .notMutable ∧
    Road.moveAsync fs r into = .error .notMutable ∧
    Road.rename_sync fs r newName = .error .notMutable ∧
    Road.renameAsync fs r newName = .error .notMutable := by
  rcases hkind with h | h | h <;>
    simp [Road.delete_sync, Road.deleteAsync, Road.move_sync, Road.moveAsync,
      Road.rename_sync, Road.renameAsync, h,
      File.delete_sync, File.deleteAsync, File.move_sync, File.moveAsync,
      File.rename_sync, File.renameAsync,
      Folder.delete_sync, Folder.deleteAsync, Folder.move_sync, Folder.moveAsync,
      Folder.rename_sync, Folder.renameAsync,
      SymbolicLink.delete_sync, SymbolicLink.deleteAsync, SymbolicLink.move_sync,
      SymbolicLink.moveAsync, SymbolicLink.rename_sync, SymbolicLink.renameAsync,
      Road.assert_mutable, hmut]

/-- C2 witness for the amended theorem: the same immutable file handle, with
all six guarded operations failing with the NotMutableError. -/
theorem claim_C2_mutability_gate_amended_witness :
    Road.delete_sync [(["f"], fileNode [9])] ⟨["f"], .file, false, false⟩
      = .error .notMutable ∧
    Road.rename_sync [(["f"], fileNode [9])] ⟨["f"], .file, false, false⟩ "g"
      = .error .notMutable := by
  have h := claim_C2_mutability_gate_amended [(["f"], fileNode [9])]
    ⟨["f"], .file, false, false⟩ ⟨["f"], .file, false, false⟩ "g" rfl (Or.inl rfl)
  exact ⟨h.1, h.2.2.2.2.1⟩

/-! ### C3: `exists` reflects presence and kind -/

/-- C3: for every handle, the async `exists` is true exactly when the
path's presence probe succeeds and the classifier still reports the
handle's own kind, and the sync `exists_sync` returns `ok true` under
exactly the same condition; in particular a file handle whose path now
holds a directory reports false (no exception) in both forms. -/
theorem claim_C3_exists_reflects_kind (fs : Fs) (r : Road) :
    (Road.existsAsync fs r = true ↔
      (accessOk fs r.pointsTo = true ∧ roadType fs r.pointsTo = .ok r.ctorKind)) ∧
    (Road.exists_sync fs r = .ok true ↔
      (existsSync fs r.pointsTo = true ∧ roadType fs r.pointsTo = .ok r.ctorKind)) ∧
    (∀ n : FsNode, fsGet fs r.pointsTo = some n →
      roadTypeOfMode n.mode = .ok .folder → r.ctorKind = .file →
      Road.exists_sync fs r = .ok false ∧ Road.existsAsync fs r = false) := by
  refine ⟨existsAsync_true_iff fs r, exists_sync_ok_true_iff fs r, ?_⟩
  intro n hget hdir hkind
  have hrt : roadType fs r.pointsTo = .ok .folder := by
    simp [roadType, lstat, hget, hdir]
  constructor
  · unfold Road.exists_sync
    cases he : existsSync fs r.pointsTo with
    | false => simp
    | true => simp [hrt, hkind]
  · unfold Road.existsAsync
    cases ha : accessOk fs r.pointsTo with
    | false => simp
    | true => simp [hrt, hkind]

/-- C3 witness: a handle constructed as a regular file whose path has been
replaced by a directory reports `exists = false` in both forms without
throwing. -/
theorem claim_C3_exists_reflects_kind_witness :
    Road.exists_sync [(["p"], dirNode)] ⟨["p"], .file, true, false⟩ = .ok false ∧
    Road.existsAsync [(["p"], dirNode)] ⟨["p"], .file, true, false⟩ = false := by
  exact (claim_C3_exists_reflects_kind [(["p"], dirNode)]
    ⟨["p"], .file, true, false⟩).2.2 dirNode rfl rfl rfl

/-! ### C4: unusable-kind handles -/

/-- C4: a handle constructed for a block-device, character-device, FIFO or
socket node has `mutable = false` from construction, is frozen so that no
assignment can ever make it mutable, fails all eight mutating operations
with the NotSupportedError naming its kind and path (the error return
carries no new filesystem state), while the non-mutating queries `stats`,
`accessible` and `exists` behave by the same generic definitions as on
every other handle. -/
theorem claim_C4_unusable_invariant (fs fs2 : Fs) (p : Path) (k : RoadT)
    (r into : Road) (newName : String) (b : Bool)
    (hk : unusableKind k = true)
    (hc : Road.construct fs k p = .ok r) :
    r.mutable = false ∧ r.frozen = true ∧ (r.setMutable b).mutable = false ∧
    Road.delete_sync fs2 r = .error (.notSupported k p) ∧
    Road.deleteAsync fs2 r = .error (.notSupported k p) ∧
    Road.move_sync fs2 r into = .error (.notSupported k p) ∧
    Road.moveAsync fs2 r into = .error (.notSupported k p) ∧
    Road.copy_sync fs2 r into = .error (.notSupported k p) ∧
    Road.copyAsync fs2 r into = .error (.notSupported k p) ∧
    Road.rename_sync fs2 r newName = .error (.notSupported k p) ∧
    Road.renameAsync fs2 r newName = .error (.notSupported k p) ∧
    Road.stats_sync fs2 r = lstat fs2 p ∧
    Road.accessible_sync fs2 r = accessOk fs2 p ∧
    (Road.existsAsync fs2 r = true ↔
      (accessOk fs2 p = true ∧ roadType fs2 p = .ok k)) := by
  obtain ⟨hshape, -, -⟩ := construct_ok_shape hc
  subst hshape
  rw [hk]
  have hiff := existsAsync_true_iff fs2 ⟨p, k, !true, true⟩
  refine ⟨rfl, rfl, by simp [Road.setMutable], ?_, ?_, ?_, ?_, ?_, ?_, ?_, ?_,
    rfl, rfl, hiff⟩ <;>
  · cases k <;> simp_all [unusableKind] <;>
      simp [Road.delete_sync, Road.deleteAsync, Road.move_sync, Road.moveAsync,
        Road.copy_sync, Road.copyAsync, Road.rename_sync, Road.renameAsync,
        UnusuableRoad.delete_sync, UnusuableRoad.deleteAsync,
        UnusuableRoad.move_sync, UnusuableRoad.moveAsync,
        UnusuableRoad.copy_sync, UnusuableRoad.copyAsync,
        UnusuableRoad.rename_sync, UnusuableRoad.renameAsync]

/-- C4 witness: a FIFO node; the constructed handle is immutable, frozen,
and every mutator fails with the NotSupportedError for that kind and
path, while `exists` still answers by the generic rule. -/
theorem claim_C4_unusable_invariant_witness :
    (∃ r : Road, Road.construct [(["p"], fifoNode)] .fifo ["p"] = .ok r) ∧
    Road.delete_sync [(["p"], fifoNode)] ⟨["p"], .fifo, false, true⟩
      = .error (.notSupported .fifo ["p"]) := by
  have h := claim_C4_unusable_invariant [(["p"], fifoNode)] [(["p"], fifoNode)]
    ["p"] .fifo ⟨["p"], .fifo, false, true⟩ ⟨["p"], .fifo, false, true⟩ "x" true
    rfl rfl
  exact ⟨⟨⟨["p"], .fifo, false, true⟩, rfl⟩, h.2.2.2.1⟩

/-! ### C5: temporary-resource scope-exit hooks -/

/-- C5 counterexample: in the part_002 variant the `TempFile` scope-exit
hooks are a bare `delete_sync()` / `await delete()`; when the underlying
file is already gone the deletion fails with ENOENT and the hook itself
raises (it neither logs nor suppresses the failure). -/
theorem claim_C5_counterexample :
    TempFile.dispose [] ⟨["t"], .file, true, false⟩ = .error .notFound ∧
    TempFile.asyncDispose [] ⟨["t"], .file, true, false⟩ = .error .notFound ∧
    TempFolder.dispose [] ⟨["t"], .folder, true, false⟩ = .error .notFound := by
  exact ⟨rfl, rfl, rfl⟩

/-- C5 amended: only the node.ts variant's scope-exit hook (sync dispose; it
has no async form) attempts deletion and, when the deletion fails, logs the
failure and suppresses it, leaving the filesystem unchanged, so that hook
never raises; the part_002 variant's dispose and asyncDispose propagate a
deletion failure. -/
theorem claim_C5_temp_dispose_amended (fs : Fs) (r : Road) :
    (∀ e : RoadErr, unlink fs r.pointsTo = .error e →
      NodeVariant.TempFile.dispose fs r = (fs, true)) ∧
    (∀ fs2 : Fs, unlink fs r.pointsTo = .ok fs2 →
      NodeVariant.TempFile.dispose fs r = (fs2, false)) ∧
    (∀ e : RoadErr, rmdirRec fs r.pointsTo = .error e →
      NodeVariant.TempFolder.dispose fs r = (fs, true)) ∧
    (∀ fs2 : Fs, rmdirRec fs r.pointsTo = .ok fs2 →
      NodeVariant.TempFolder.dispose fs r = (fs2, false)) := by
  refine ⟨?_, ?_, ?_, ?_⟩ <;> intro x h <;>
    simp [NodeVariant.TempFile.dispose, NodeVariant.TempFolder.dispose,
      NodeVariant.File.delete_sync, NodeVariant.Folder.delete_sync, h]

/-- C5 witness for the amended theorem: with the temp file already gone the
node.ts dispose swallows the failure and leaves the state unchanged; with it
present, dispose deletes it. -/
theorem claim_C5_temp_dispose_amended_witness :
    NodeVariant.TempFile.dispose [] ⟨["t"], .file, true, false⟩ = ([], true) ∧
    NodeVariant.TempFile.dispose [(["t"], fileNode [])] ⟨["t"], .file, true, false⟩
      = ([], false) := by
  constructor
  · exact (claim_C5_temp_dispose_amended [] ⟨["t"], .file, true, false⟩).1
      .notFound rfl
  · exact (claim_C5_temp_dispose_amended [(["t"], fileNode [])]
      ⟨["t"], .file, true, false⟩).2.1 [] rfl

/-! ### C6: `find` and nested names -/

/-- C6 counterexample: in the part_002 variant, `find_sync` on the name
`"a/b"` (which contains a path separator) does not reject the lookup: it
joins the name onto the directory's path and resolves the existing nested
descendant `/d/a/b`, returning its handle. -/
theorem claim_C6_counterexample :
    ("a/b".data.contains '/') = true ∧
    Folder.find_sync [(["d"], dirNode), (["d", "a"], dirNode), (["d", "a", "b"], fileNode [])]
        ⟨["d"], .folder, true, false⟩ "a/b"
      = some ⟨["d", "a", "b"], .file, true, false⟩ ∧
    Folder.findAsync [(["d"], dirNode), (["d", "a"], dirNode), (["d", "a", "b"], fileNode [])]
        ⟨["d"], .folder, true, false⟩ "a/b"
      = some ⟨["d", "a", "b"], .file, true, false⟩ := by
  exact ⟨rfl, rfl, rfl⟩

/-- C6 amended: only the part_003 variant's `Folder.find` rejects a name
containing a path separator ("/" or "\\"), failing with the invalid-path
error; the part_002 variant's `find_sync` / `find` perform no such check
and resolve an existing nested descendant instead. -/
theorem claim_C6_find_rejects_separators_amended (fs : Fs) (r : Road) (name : String)
    (h : name.data.contains '/' = true ∨ name.data.contains '\\' = true) :
    P3.Folder.find fs r name = .error .invalidPath := by
  unfold P3.Folder.find
  by_cases hlen : name.length = 0
  · simp [hlen]
  · rcases h with h | h
    · have hm : '/' ∈ name.data := by simpa using h
      simp [hlen, hm]
    · have hm : '\\' ∈ name.data := by simpa using h
      simp [hlen, hm]

/-- C6 witness for the amended theorem at the same nested name. -/
theorem claim_C6_find_rejects_separators_amended_witness :
    P3.Folder.find [(["d"], dirNode), (["d", "a"], dirNode), (["d", "a", "b"], fileNode [])]
        ⟨["d"], .folder, true, false⟩ "a/b" = .error .invalidPath := by
  exact claim_C6_find_rejects_separators_amended _ _ "a/b" (Or.inl (by decide))

/-! ### C8: classifier and factory round-trip -/

/-- C8: the classifier maps a raw lstat mode through the `S_IFMT` mask to
each of the seven kinds, throws the UnknownKindError on a mode matching none
of them, and — on any path whose on-disk node's own (lstat) mode classifies
as kind K, a symbolic link included — `roadType` reports K and the factory
returns the concrete handle for K whose kind is K. -/
theorem claim_C8_classification_roundtrip :
    (∀ m : Nat, m &&& S_IFMT = S_IFREG → roadTypeOfMode m = .ok .file) ∧
    (∀ m : Nat, m &&& S_IFMT = S_IFDIR → roadTypeOfMode m = .ok .folder) ∧
    (∀ m : Nat, m &&& S_IFMT = S_IFBLK → roadTypeOfMode m = .ok .blockDevice) ∧
    (∀ m : Nat, m &&& S_IFMT = S_IFCHR → roadTypeOfMode m = .ok .charDevice) ∧
    (∀ m : Nat, m &&& S_IFMT = S_IFLNK → roadTypeOfMode m = .ok .symlink) ∧
    (∀ m : Nat, m &&& S_IFMT = S_IFIFO → roadTypeOfMode m = .ok .fifo) ∧
    (∀ m : Nat, m &&& S_IFMT = S_IFSOCK → roadTypeOfMode m = .ok .socket) ∧
    (∀ m : Nat, m &&& S_IFMT ≠ S_IFREG → m &&& S_IFMT ≠ S_IFDIR →
      m &&& S_IFMT ≠ S_IFBLK → m &&& S_IFMT ≠ S_IFCHR → m &&& S_IFMT ≠ S_IFLNK →
      m &&& S_IFMT ≠ S_IFIFO → m &&& S_IFMT ≠ S_IFSOCK →
      roadTypeOfMode m = .error .unknownKind) ∧
    (∀ (fs : Fs) (p : Path) (n : FsNode) (k : RoadT),
      fsGet fs p = some n → roadTypeOfMode n.mode = .ok k → accessOk fs p = true →
      roadType fs p = .ok k ∧
      Road.factory_sync fs p = .ok ⟨p, k, !unusableKind k, unusableKind k⟩ ∧
      Road.factory fs p = .ok ⟨p, k, !unusableKind k, unusableKind k⟩) := by
  refine ⟨?_, ?_, ?_, ?_, ?_, ?_, ?_, ?_, ?_⟩
  · intro m h; simp only [roadTypeOfMode, h]; decide
  · intro m h; simp only [roadTypeOfMode, h]; decide
  · intro m h; simp only [roadTypeOfMode, h]; decide
  · intro m h; simp only [roadTypeOfMode, h]; decide
  · intro m h; simp only [roadTypeOfMode, h]; decide
  · intro m h; simp only [roadTypeOfMode, h]; decide
  · intro m h; simp only [roadTypeOfMode, h]; decide
  · intro m h1 h2 h3 h4 h5 h6 h7
    simp [roadTypeOfMode, h1, h2, h3, h4, h5, h6, h7]
  · intro fs p n k h1 h2 h3
    have hrt : roadType fs p = .ok k := by simp [roadType, lstat, h1, h2]
    refine ⟨hrt, ?_, ?_⟩ <;> simp [Road.factory_sync, Road.factory, Road.construct, h3, hrt]

/-- C8 witness: a regular-file mode classifies as the file kind, mode 0
throws the UnknownKindError, and on a symbolic link to a file the classifier
reports the link's own kind (not its target's) with the factory returning a
SymbolicLink handle. -/
theorem claim_C8_classification_roundtrip_witness :
    roadTypeOfMode 33188 = .ok .file ∧
    roadTypeOfMode 0 = .error .unknownKind ∧
    roadType [(["f"], fileNode []), (["l"], linkNode ["f"])] ["l"] = .ok .symlink ∧
    Road.factory_sync [(["f"], fileNode []), (["l"], linkNode ["f"])] ["l"]
      = .ok ⟨["l"], .symlink, true, false⟩ := by
  have h := claim_C8_classification_roundtrip
  have h9 := h.2.2.2.2.2.2.2.2 [(["f"], fileNode []), (["l"], linkNode ["f"])] ["l"]
    (linkNode ["f"]) .symlink rfl (by decide) (by decide)
  exact ⟨h.1 33188 (by decide),
    h.2.2.2.2.2.2.2.1 0 (by decide) (by decide) (by decide) (by decide) (by decide)
      (by decide) (by decide),
    h9.1, h9.2.1⟩

/-! ### C10: dangling symbolic links -/

/-- C10: for a handle on a symbolic-link entry whose target is absent (a
dangling link), `exists` and `exists_sync` return false — the presence probe
follows the link to its missing target — even though the lstat-based
classifier still reports the path as a symbolic link. -/
theorem claim_C10_dangling_symlink (fs : Fs) (r : Road) (n : FsNode)
    (hget : fsGet fs r.pointsTo = some n)
    (hlink : roadTypeOfMode n.mode = .ok .symlink)
    (hdangling : fsGet fs n.target = none) :
    Road.existsAsync fs r = false ∧ Road.exists_sync fs r = .ok false ∧
    roadType fs r.pointsTo = .ok .symlink := by
  have hlinknode : isLinkNode n = true := by simp [isLinkNode, hlink]
  have hfollow : followLinks linkFuel fs r.pointsTo = none := by
    show followLinks (39 + 1) fs r.pointsTo = none
    rw [followLinks]
    simp only [hget, hlinknode, if_true]
    show followLinks (38 + 1) fs n.target = none
    rw [followLinks]
    simp [hdangling]
  refine ⟨?_, ?_, ?_⟩
  · simp [Road.existsAsync, accessOk, hfollow]
  · simp [Road.exists_sync, existsSync, hfollow]
  · simp [roadType, lstat, hget, hlink]

/-- C10 witness: a link at `/l` whose stored target `/gone` is absent. -/
theorem claim_C10_dangling_symlink_witness :
    Road.existsAsync [(["l"], linkNode ["gone"])] ⟨["l"], .symlink, true, false⟩ = false ∧
    Road.exists_sync [(["l"], linkNode ["gone"])] ⟨["l"], .symlink, true, false⟩
      = .ok false ∧
    roadType [(["l"], linkNode ["gone"])] ["l"] = .ok .symlink := by
  exact claim_C10_dangling_symlink [(["l"], linkNode ["gone"])]
    ⟨["l"], .symlink, true, false⟩ (linkNode ["gone"]) rfl (by decide) rfl

/-! ### C9: the ancestors walk -/

theorem chainFrom_nil : chainFrom [] = [] := by
  rw [chainFrom]
  simp

theorem chainFrom_cons (p : Path) (h : p ≠ []) :
    chainFrom p = p :: chainFrom (dirname p) := by
  rw [chainFrom]
  simp [h]

theorem prefix_dirname {q p : Path} (hpre : q <+: p) (hne : q ≠ p) :
    q <+: dirname p := by
  obtain ⟨t, rfl⟩ := hpre
  have ht : t ≠ [] := by
    intro h0
    exact hne (by simp [h0])
  rw [dirname, List.dropLast_append_of_ne_nil q ht]
  exact ⟨t.dropLast, rfl⟩

theorem prefix_mem_chainFrom (p : Path) : ∀ q : Path, q <+: p →
    q = [] ∨ q ∈ chainFrom p := by
  induction p using chainFrom.induct with
  | case1 =>
    intro q hq
    exact Or.inl (List.prefix_nil.mp hq)
  | case2 p hp ih =>
    intro q hq
    by_cases hqp : q = p
    · right
      rw [chainFrom_cons p hp, hqp]
      exact List.mem_cons_self _ _
    · rcases ih q (prefix_dirname hq hqp) with h0 | hmem
      · exact Or.inl h0
      · right
        rw [chainFrom_cons p hp]
        exact List.mem_cons_of_mem _ hmem

theorem mem_chainFrom (p : Path) : ∀ q ∈ chainFrom p,
    q.length ≤ p.length ∧ q ≠ [] := by
  induction p using chainFrom.induct with
  | case1 =>
    rw [chainFrom_nil]
    intro q hq
    exact absurd hq (List.not_mem_nil q)
  | case2 p hp ih =>
    rw [chainFrom_cons p hp]
    intro q hq
    rcases List.mem_cons.mp hq with rfl | hmem
    · exact ⟨le_refl _, hp⟩
    · obtain ⟨hlen, hne⟩ := ih q hmem
      refine ⟨?_, hne⟩
      have := List.length_dropLast p
      simp only [dirname] at hlen
      omega

theorem chainFrom_nodup (p : Path) : (chainFrom p).Nodup := by
  induction p using chainFrom.induct with
  | case1 =>
    rw [chainFrom_nil]
    exact List.nodup_nil
  | case2 p hp ih =>
    rw [chainFrom_cons p hp]
    refine List.nodup_cons.mpr ⟨?_, ih⟩
    intro hmem
    obtain ⟨hlen, -⟩ := mem_chainFrom (dirname p) p hmem
    have hpos : 0 < p.length := List.length_pos.mpr hp
    have := List.length_dropLast p
    simp only [dirname] at hlen
    omega

theorem chainFrom_length (p : Path) : (chainFrom p).length = p.length := by
  induction p using chainFrom.induct with
  | case1 =>
    rw [chainFrom_nil]
    rfl
  | case2 p hp ih =>
    rw [chainFrom_cons p hp]
    have hpos : 0 < p.length := List.length_pos.mpr hp
    have := List.length_dropLast p
    simp only [List.length_cons, ih, dirname] at *
    omega

theorem ancestorsLoop_ok (fs : Fs) : ∀ (fuel : Nat) (p : Path), p.length ≤ fuel →
    (∀ q : Path, q <+: p → accessOk fs q = true ∧ roadType fs q = .ok .folder) →
    ancestorsLoop fs p
      = .ok ((chainFrom p).map (fun q => ⟨q, .folder, true, false⟩)) := by
  intro fuel
  induction fuel with
  | zero =>
    intro p hle hyp
    have hp : p = [] := List.length_eq_zero.mp (Nat.le_zero.mp hle)
    subst hp
    have h := hyp [] (List.prefix_refl [])
    rw [ancestorsLoop, show dirname ([] : Path) = [] from rfl,
      construct_folder_ok h.1 h.2]
    simp [chainFrom_nil]
  | succ fuel ih =>
    intro p hle hyp
    by_cases hp : p = []
    · subst hp
      have h := hyp [] (List.prefix_refl [])
      rw [ancestorsLoop, show dirname ([] : Path) = [] from rfl,
        construct_folder_ok h.1 h.2]
      simp [chainFrom_nil]
    · have hdpre : dirname p <+: p := by
        rw [dirname]
        exact List.dropLast_prefix p
      have hd := hyp (dirname p) hdpre
      have hne : ¬ p = dirname p := by
        intro he
        have := congrArg List.length he
        simp only [dirname, List.length_dropLast] at this
        have hpos : 0 < p.length := List.length_pos.mpr hp
        omega
      have hrec := ih (dirname p)
        (by
          have := List.length_dropLast p
          have hpos : 0 < p.length := List.length_pos.mpr hp
          simp only [dirname]
          omega)
        (fun q hq => hyp q (hq.trans hdpre))
      rw [ancestorsLoop, construct_folder_ok hd.1 hd.2]
      simp only [hne, dite_false, hrec]
      rw [chainFrom_cons p hp]
      simp

/-- C9: for every handle whose ancestor directories (all proper prefixes of
its resolved path, the root included) exist as directories, `ancestors`
terminates with exactly the chain of ancestor directory handles ordered
from the immediate parent upward, excluding the self-referential root;
the chain never revisits a directory and its length is bounded by the
path's depth (exactly `depth - 1` segments). -/
theorem claim_C9_ancestors_walk (fs : Fs) (r : Road)
    (hanc : ∀ q ∈ ([] : Path) :: chainFrom (dirname r.pointsTo),
      accessOk fs q = true ∧ roadType fs q = .ok .folder) :
    Road.ancestors fs r
      = .ok ((ancestorPaths r.pointsTo).map (fun q => ⟨q, .folder, true, false⟩)) ∧
    ((ancestorPaths r.pointsTo).map
        (fun q => (⟨q, .folder, true, false⟩ : Road))).map Road.pointsTo
      = ancestorPaths r.pointsTo ∧
    (ancestorPaths r.pointsTo).Nodup ∧
    (ancestorPaths r.pointsTo).length = r.pointsTo.length - 1 ∧
    ([] : Path) ∉ ancestorPaths r.pointsTo := by
  have hyp : ∀ q : Path, q <+: dirname r.pointsTo →
      accessOk fs q = true ∧ roadType fs q = .ok .folder := by
    intro q hq
    rcases prefix_mem_chainFrom (dirname r.pointsTo) q hq with rfl | hmem
    · exact hanc [] (List.mem_cons_self _ _)
    · exact hanc q (List.mem_cons_of_mem _ hmem)
  have hd := hyp (dirname r.pointsTo) (List.prefix_refl _)
  refine ⟨?_, ?_, chainFrom_nodup _, ?_, ?_⟩
  · unfold Road.ancestors
    rw [construct_folder_ok hd.1 hd.2]
    exact ancestorsLoop_ok fs (dirname r.pointsTo).length (dirname r.pointsTo)
      (le_refl _) hyp
  · rw [List.map_map,
      show (Road.pointsTo ∘ fun q : Path => (⟨q, .folder, true, false⟩ : Road)) = id
        from rfl,
      List.map_id]
  · rw [ancestorPaths, chainFrom_length]
    simp [dirname, List.length_dropLast]
  · intro hmem
    exact (mem_chainFrom _ _ hmem).2 rfl

/-- C9 witness: a file at `/a/b/f` with directories `/`, `/a`, `/a/b`;
`ancestors` returns exactly the handles for `/a/b` then `/a`, excluding
the root. -/
theorem claim_C9_ancestors_walk_witness :
    Road.ancestors
        [([], dirNode), (["a"], dirNode), (["a", "b"], dirNode),
          (["a", "b", "f"], fileNode [])]
        ⟨["a", "b", "f"], .file, true, false⟩
      = .ok [⟨["a", "b"], .folder, true, false⟩, ⟨["a"], .folder, true, false⟩] := by
  have h1 : chainFrom (["a", "b"] : Path) = ["a", "b"] :: chainFrom ["a"] :=
    chainFrom_cons _ (by decide)
  have h2 : chainFrom (["a"] : Path) = ["a"] :: chainFrom [] :=
    chainFrom_cons _ (by decide)
  have hchain : chainFrom (["a", "b"] : Path) = [["a", "b"], ["a"]] := by
    rw [h1, h2, chainFrom_nil]
  have h := claim_C9_ancestors_walk
    [([], dirNode), (["a"], dirNode), (["a", "b"], dirNode),
      (["a", "b", "f"], fileNode [])]
    ⟨["a", "b", "f"], .file, true, false⟩
    (by
      have hchain2 : (([] : Path) :: chainFrom
          (dirname ((⟨["a", "b", "f"], .file, true, false⟩ : Road).pointsTo)))
          = [[], ["a", "b"], ["a"]] := by
        rw [show dirname ((⟨["a", "b", "f"], .file, true, false⟩ : Road).pointsTo)
          = (["a", "b"] : Path) from rfl, hchain]
      rw [hchain2]
      decide)
  rw [h.1]
  rw [show ancestorPaths (["a", "b", "f"] : Path) = chainFrom (["a", "b"] : Path)
    from rfl, hchain]
  rfl

end TsInstr
